import Mathlib

set_option maxHeartbeats 1000000

/-!
Shallow embedding of `model/sharing/indexer.go` from cozy-stack: the sharing
indexer that intercepts file/folder writes to force pre-determined CouchDB
revisions, together with its revision cursor (stash / unstash / bogus
previous revision / increment) and conflict hook (`WillResolveConflict`).

External collaborators (the underlying `vfs.Indexer`, CouchDB bulk writes,
realtime events, the shared-refs store) are modelled as an effect log: each
operation returns its successor state, the list of externally visible
effects it performed, and the error it returned.  A `delegate` effect means
the call was forwarded verbatim to the wrapped normal indexer.
-/

/-- Wire structure for CouchDB `_revisions`: generation of the head revision
(`Start`, a Go `int`) and hash tokens, newest first (`IDs`). The Go type
`RevsStruct` is declared in the sharing package's revisions file. -/
structure RevsStruct where
  Start : Int
  IDs : List String
deriving Repr, DecidableEq

/-- Go struct `bulkRevs`: the pending forced-write context, holding the
revision to force on the next write (`Rev`) and the history chain to attach
(`Revisions`). -/
structure BulkRevs where
  Rev : String
  Revisions : RevsStruct
deriving Repr, DecidableEq

/-- State of Go struct `sharingIndexer`: `bulkRevs` is the pending
forced-write context (`none` models the Go nil pointer), `shared` models
whether the `shared` field is a non-nil `*SharedRef`. The `db` and
`indexer` fields are external handles, modelled through the effect log. -/
structure SharingIndexer where
  bulkRevs : Option BulkRevs
  shared : Bool
deriving Repr, DecidableEq

/-- The fields of `vfs.FileDoc` that drive control flow in the sharing
indexer: the trashed flag, the current revision (mutated by `SetRev`), and
whether `doc.Path(s)` succeeds (an external lookup, modelled as a flag).
All other fields are payload copied verbatim into the bulk write. -/
structure FileDoc where
  Trashed : Bool
  Rev : String
  pathOk : Bool
deriving Repr, DecidableEq

/-- The fields of `vfs.DirDoc` relevant here: only the revision mutated by
`SetRev`; the rest is payload copied verbatim into the bulk write. -/
structure DirDoc where
  Rev : String
deriving Repr, DecidableEq

/-- Errors surfaced by the sharing indexer: `internalServerError` is the
sharing package's `ErrInternalServerError` (the spec's
`UnsupportedOperation` / internal-error condition); `pathError` stands for
a failure of the external `doc.Path` lookup. -/
inductive Err where
  | internalServerError
  | pathError
deriving Repr, DecidableEq

/-- Externally visible effects of one operation. `delegate op` is a verbatim
pass-through of the call to the wrapped normal indexer; `bulkWrite` is
`couchdb.BulkForceUpdateDocs` with the forced `_rev` and `_revisions`;
`rtEvent` is `couchdb.RTEvent`; `updateShared` is `UpdateFileShared`. -/
inductive Effect where
  | delegate (op : String)
  | bulkWrite (rev : String) (revisions : RevsStruct)
  | rtEvent (kind : String) (withOld : Bool)
  | updateShared (revisions : RevsStruct)
deriving Repr, DecidableEq

/-- Result of one indexer operation: successor state, effect log, returned
error (`none` = success / no error returned). -/
abbrev OpResult := SharingIndexer × List Effect × Option Err

/-- Decimal parse of a digit list (most significant first); `none` when the
list is empty or contains a non-digit. -/
def natOfDigits (cs : List Char) : Option Nat :=
  if cs = [] then none
  else if cs.all Char.isDigit then
    some (cs.foldl (fun n c => n * 10 + (c.toNat - 48)) 0)
  else none

/-- Modelled from the spec: `generationOf(id)` reads the positive-integer
prefix before the first `-` of a revision identifier. The defining source
(the sharing package's revisions file, Go `RevGeneration`) is not under
src; malformed prefixes are out of scope for the claims and map to 0. -/
def RevGeneration (rev : String) : Nat :=
  (natOfDigits (rev.data.takeWhile (fun c => c != '-'))).getD 0

/-- Modelled from the spec: the opaque hash token after the first `-` of a
revision identifier (the `parse` accessor of the revision wire format). -/
def revHash (rev : String) : String :=
  String.mk ((rev.data.dropWhile (fun c => c != '-')).drop 1)

/-- Modelled from the spec: converts a revision chain (ordered oldest to
newest, the newest element being the leaf) to the wire structure whose
`start` is the generation of the head (newest) revision and whose ids are
the hash tokens, newest-adjacent-first. The defining Go function
`revsChainToStruct` is not under src. -/
def revsChainToStruct (chain : List String) : RevsStruct :=
  { Start := (RevGeneration (chain.getLastD "") : Int),
    IDs := chain.reverse.map revHash }

/-- Modelled from the spec: the "mixup" combines a revision with a chain as
a duplicate-removing union that preserves the chain's relative order,
placing the extra revision by generation. The defining Go function
`MixupChainToResolveConflict` is not under src, and the spec leaves the
exact interleaving open; no theorem below depends on its output value. -/
def MixupChainToResolveConflict (rev : String) (chain : List String) : List String :=
  if chain.contains rev then chain
  else
    chain.takeWhile (fun c => RevGeneration c < RevGeneration rev) ++ rev ::
      chain.dropWhile (fun c => RevGeneration c < RevGeneration rev)

/-- `IncrementRevision` (indexer.go): with an active context, bumps the
generation counter, prepends a freshly generated random id (`generated`
models the output of the random source), and makes
`"<Start+1>-<generated>"` the new target revision. Without a context it is
a no-op. -/
def IncrementRevision (s : SharingIndexer) (generated : String) : SharingIndexer :=
  match s.bulkRevs with
  | none => s
  | some br =>
    let start := br.Revisions.Start + 1
    { s with bulkRevs := some ⟨toString start ++ "-" ++ generated, ⟨start, generated :: br.Revisions.IDs⟩⟩ }

/-- `WillResolveConflict` (indexer.go). It indexes `chain[len(chain)-1]`
unconditionally (`none` models the Go panic on an empty chain) and, on the
branch taken when the two generations differ, writes through `s.bulkRevs`
without a nil check (`none` models the nil-pointer panic). -/
def WillResolveConflict (s : SharingIndexer) (rev : String) (chain : List String) :
    Option SharingIndexer :=
  match chain.getLast? with
  | none => none
  | some last =>
    if RevGeneration last = RevGeneration rev then
      some { s with bulkRevs := none }
    else
      match s.bulkRevs with
      | none => none
      | some _ =>
        let altered := MixupChainToResolveConflict rev chain
        some { s with bulkRevs := some ⟨last, revsChainToStruct altered⟩ }

/-- `StashRevision` (indexer.go): requires at least 2 remaining ids for a
new file, 3 for an existing one; otherwise clears the context and returns
`""`. On success it removes the head id, decrements `Start`, points the
target revision at the new head, and returns the removed id. -/
def StashRevision (s : SharingIndexer) (newFile : Bool) : SharingIndexer × String :=
  let minRevs : Nat := if newFile then 2 else 3
  match s.bulkRevs with
  | none => ({ s with bulkRevs := none }, "")
  | some br =>
    if br.Revisions.IDs.length < minRevs then
      ({ s with bulkRevs := none }, "")
    else
      let stash := br.Revisions.IDs.headD ""
      let ids := br.Revisions.IDs.tail
      let start := br.Revisions.Start - 1
      ({ s with bulkRevs := some ⟨toString start ++ "-" ++ ids.headD "", ⟨start, ids⟩⟩ }, stash)

/-- `UnstashRevision` (indexer.go): with an active context, reinserts the
stashed id at the head, increments `Start` back, and points the target
revision at the reinserted id. Without a context it is a no-op. -/
def UnstashRevision (s : SharingIndexer) (stash : String) : SharingIndexer :=
  match s.bulkRevs with
  | none => s
  | some br =>
    let start := br.Revisions.Start + 1
    { s with bulkRevs := some ⟨toString start ++ "-" ++ stash, ⟨start, stash :: br.Revisions.IDs⟩⟩ }

/-- `CreateBogusPrevRev` (indexer.go): with an active context, appends a
synthetic random ancestor id (`bogus` models the random source) at the tail
of the id list. Without a context it is a no-op. -/
def CreateBogusPrevRev (s : SharingIndexer) (bogus : String) : SharingIndexer :=
  match s.bulkRevs with
  | none => s
  | some br =>
    { s with bulkRevs := some ⟨br.Rev, ⟨br.Revisions.Start, br.Revisions.IDs ++ [bogus]⟩⟩ }

/-- `bulkForceUpdateDoc` (indexer.go): sets the doc's revision to the forced
one (`doc.SetRev`) and performs the CouchDB bulk forced write carrying
`_rev` and `_revisions`. `none` models the Go nil-pointer panic when no
context is active (every caller checks first). -/
def bulkForceUpdateDoc (s : SharingIndexer) (doc : FileDoc) : Option (FileDoc × Effect) :=
  match s.bulkRevs with
  | none => none
  | some br => some ({ doc with Rev := br.Rev }, Effect.bulkWrite br.Rev br.Revisions)

/-- `InitIndex` (indexer.go): unconditionally returns
`ErrInternalServerError`, with no effect on state or storage. -/
def InitIndex (s : SharingIndexer) : OpResult :=
  (s, [], some Err.internalServerError)

/-- `DiskUsage` (indexer.go): unconditional pass-through. -/
def DiskUsage (s : SharingIndexer) : OpResult :=
  (s, [Effect.delegate "DiskUsage"], none)

/-- `FilesUsage` (indexer.go): unconditional pass-through. -/
def FilesUsage (s : SharingIndexer) : OpResult :=
  (s, [Effect.delegate "FilesUsage"], none)

/-- `VersionsUsage` (indexer.go): unconditional pass-through. -/
def VersionsUsage (s : SharingIndexer) : OpResult :=
  (s, [Effect.delegate "VersionsUsage"], none)

/-- `TrashUsage` (indexer.go): unconditional pass-through. -/
def TrashUsage (s : SharingIndexer) : OpResult :=
  (s, [Effect.delegate "TrashUsage"], none)

/-- `CreateFileDoc` (indexer.go): unconditionally returns
`ErrInternalServerError`, with no effect on state or storage. -/
def CreateFileDoc (s : SharingIndexer) : OpResult :=
  (s, [], some Err.internalServerError)

/-- `CreateNamedFileDoc` (indexer.go). Without a context: pure delegation.
With a context: a non-trashed doc is bulk-force-written (after the `Path`
lookup) and a create event is emitted; a trashed placeholder doc first gets
a bogus ancestor when only one id remains, then stashes the head revision
around the single physical write and unstashes it. `bogus` models the
random source; the overall `none` models the Go nil-pointer panic reachable
when the stash falls back inside this branch. -/
def CreateNamedFileDoc (s : SharingIndexer) (doc : FileDoc) (bogus : String) :
    Option (SharingIndexer × FileDoc × List Effect × Option Err) :=
  match s.bulkRevs with
  | none => some (s, doc, [Effect.delegate "CreateNamedFileDoc"], none)
  | some br =>
    if doc.Trashed = false then
      if doc.pathOk = false then
        some (s, doc, [], some Err.pathError)
      else
        some (s, { doc with Rev := br.Rev },
          [Effect.bulkWrite br.Rev br.Revisions, Effect.rtEvent "create" false], none)
    else
      let s1 := if br.Revisions.IDs.length = 1 then CreateBogusPrevRev s bogus else s
      let stashed := StashRevision s1 true
      match bulkForceUpdateDoc stashed.1 doc with
      | none => none
      | some (doc2, eff) => some (UnstashRevision stashed.1 stashed.2, doc2, [eff], none)

/-- `UpdateFileDoc` (indexer.go). Without a context: pure delegation. With a
context: bulk-force-write the doc, update the shared ref when `shared` is
non-nil, check the `Path` lookups, and emit an update event. -/
def UpdateFileDoc (s : SharingIndexer) (olddoc : Option FileDoc) (doc : FileDoc) :
    SharingIndexer × FileDoc × List Effect × Option Err :=
  match s.bulkRevs with
  | none => (s, doc, [Effect.delegate "UpdateFileDoc"], none)
  | some br =>
    let doc1 : FileDoc := { doc with Rev := br.Rev }
    let effs := Effect.bulkWrite br.Rev br.Revisions ::
      (if s.shared then [Effect.updateShared br.Revisions] else [])
    if doc1.pathOk = false then
      (s, doc1, effs, some Err.pathError)
    else
      match olddoc with
      | some od =>
        if od.pathOk = false then (s, doc1, effs, some Err.pathError)
        else (s, doc1, effs ++ [Effect.rtEvent "update" true], none)
      | none => (s, doc1, effs ++ [Effect.rtEvent "update" false], none)

/-- `DeleteFileDoc` (indexer.go): unconditional pass-through to the normal
indexer (used when uploading a new file fails), even while a context is
active. -/
def DeleteFileDoc (s : SharingIndexer) : OpResult :=
  (s, [Effect.delegate "DeleteFileDoc"], none)

/-- `CreateDirDoc` (indexer.go): unconditionally returns
`ErrInternalServerError`, with no effect on state or storage. -/
def CreateDirDoc (s : SharingIndexer) : OpResult :=
  (s, [], some Err.internalServerError)

/-- `UpdateDirDoc` (indexer.go). Without a context: pure delegation. With a
context: bulk-force-write the dir doc, update the shared ref, and emit an
update event. -/
def UpdateDirDoc (s : SharingIndexer) (olddoc : Option DirDoc) (doc : DirDoc) :
    SharingIndexer × DirDoc × List Effect × Option Err :=
  match s.bulkRevs with
  | none => (s, doc, [Effect.delegate "UpdateDirDoc"], none)
  | some br =>
    (s, { doc with Rev := br.Rev },
      [Effect.bulkWrite br.Rev br.Revisions, Effect.updateShared br.Revisions,
        Effect.rtEvent "update" olddoc.isSome], none)

/-- `CreateNamedDirDoc` (indexer.go): defined as `UpdateDirDoc(nil, doc)`. -/
def CreateNamedDirDoc (s : SharingIndexer) (doc : DirDoc) :
    SharingIndexer × DirDoc × List Effect × Option Err :=
  UpdateDirDoc s none doc

/-- `DeleteDirDoc` (indexer.go): unconditionally returns
`ErrInternalServerError`, with no effect on state or storage. -/
def DeleteDirDoc (s : SharingIndexer) : OpResult :=
  (s, [], some Err.internalServerError)

/-- `DeleteDirDocAndContent` (indexer.go): unconditionally returns
`ErrInternalServerError`, with no effect on state or storage. -/
def DeleteDirDocAndContent (s : SharingIndexer) : OpResult :=
  (s, [], some Err.internalServerError)

/-- `BatchDelete` (indexer.go): unconditionally returns
`ErrInternalServerError`, with no effect on state or storage. -/
def BatchDelete (s : SharingIndexer) : OpResult :=
  (s, [], some Err.internalServerError)

/-- `DirByID` (indexer.go): unconditional pass-through. -/
def DirByID (s : SharingIndexer) : OpResult :=
  (s, [Effect.delegate "DirByID"], none)

/-- `DirByPath` (indexer.go): unconditional pass-through. -/
def DirByPath (s : SharingIndexer) : OpResult :=
  (s, [Effect.delegate "DirByPath"], none)

/-- `FileByID` (indexer.go): unconditional pass-through. -/
def FileByID (s : SharingIndexer) : OpResult :=
  (s, [Effect.delegate "FileByID"], none)

/-- `FileByPath` (indexer.go): unconditional pass-through. -/
def FileByPath (s : SharingIndexer) : OpResult :=
  (s, [Effect.delegate "FileByPath"], none)

/-- `FilePath` (indexer.go): unconditional pass-through. -/
def FilePath (s : SharingIndexer) : OpResult :=
  (s, [Effect.delegate "FilePath"], none)

/-- `DirOrFileByID` (indexer.go): unconditional pass-through. -/
def DirOrFileByID (s : SharingIndexer) : OpResult :=
  (s, [Effect.delegate "DirOrFileByID"], none)

/-- `DirOrFileByPath` (indexer.go): unconditional pass-through. -/
def DirOrFileByPath (s : SharingIndexer) : OpResult :=
  (s, [Effect.delegate "DirOrFileByPath"], none)

/-- `DirIterator` (indexer.go): unconditional pass-through. -/
def DirIterator (s : SharingIndexer) : OpResult :=
  (s, [Effect.delegate "DirIterator"], none)

/-- `DirBatch` (indexer.go): unconditional pass-through. -/
def DirBatch (s : SharingIndexer) : OpResult :=
  (s, [Effect.delegate "DirBatch"], none)

/-- `DirLength` (indexer.go): unconditional pass-through. -/
def DirLength (s : SharingIndexer) : OpResult :=
  (s, [Effect.delegate "DirLength"], none)

/-- `DirChildExists` (indexer.go): unconditional pass-through. -/
def DirChildExists (s : SharingIndexer) : OpResult :=
  (s, [Effect.delegate "DirChildExists"], none)

/-- `CreateVersion` (indexer.go): unconditional pass-through. -/
def CreateVersion (s : SharingIndexer) : OpResult :=
  (s, [Effect.delegate "CreateVersion"], none)

/-- `DeleteVersion` (indexer.go): unconditional pass-through. -/
def DeleteVersion (s : SharingIndexer) : OpResult :=
  (s, [Effect.delegate "DeleteVersion"], none)

/-- `BatchDeleteVersions` (indexer.go): unconditional pass-through. -/
def BatchDeleteVersions (s : SharingIndexer) : OpResult :=
  (s, [Effect.delegate "BatchDeleteVersions"], none)

/-- `CheckIndexIntegrity` (indexer.go): unconditionally returns
`ErrInternalServerError`, with no effect on state or storage. -/
def CheckIndexIntegrity (s : SharingIndexer) : OpResult :=
  (s, [], some Err.internalServerError)

/-- `CheckTreeIntegrity` (indexer.go): unconditionally returns
`ErrInternalServerError`, with no effect on state or storage. -/
def CheckTreeIntegrity (s : SharingIndexer) : OpResult :=
  (s, [], some Err.internalServerError)

/-- `BuildTree` (indexer.go): unconditionally returns
`ErrInternalServerError`, with no effect on state or storage. -/
def BuildTree (s : SharingIndexer) : OpResult :=
  (s, [], some Err.internalServerError)

/-- Idle indexer: no pending forced-write context. -/
def sIdle : SharingIndexer := ⟨none, false⟩

/-- Indexer with an active pending context whose target is `"3-aaa"`. -/
def sActive : SharingIndexer := ⟨some ⟨"3-aaa", ⟨3, ["aaa", "zzz", "yyy"]⟩⟩, false⟩

/-- Incoming chain with leaf `"5-bbb"` and 4 ancestors, oldest first. -/
def chainFive : List String := ["1-ccc", "2-ddd", "3-eee", "4-fff", "5-bbb"]

/-- Indexer with an active context for the equal-generation scenario. -/
def sEqualGen : SharingIndexer := ⟨some ⟨"4-bbb", ⟨4, ["bbb", "zzz", "yyy"]⟩⟩, false⟩

/-- Incoming chain with leaf `"4-bbb"`, sharing ancestor `"2-yyy"`. -/
def chainFour : List String := ["2-yyy", "3-zzz", "4-bbb"]

/-- C1 counterexample: for local leaf `"3-aaa"` and incoming leaf `"5-bbb"`
with 4 ancestors, `WillResolveConflict` does NOT clear the pending context:
the call succeeds and leaves a non-nil `bulkRevs`, whose target revision is
the incoming leaf `"5-bbb"` — refuting the claim that `bulkRevs` becomes
nil in the different-generation case. -/
theorem willResolveConflict_c1_cex :
    ((WillResolveConflict sActive "3-aaa" chainFive).bind SharingIndexer.bulkRevs).isSome
        = true ∧
      ((WillResolveConflict sActive "3-aaa" chainFive).bind
          SharingIndexer.bulkRevs).map BulkRevs.Rev = some "5-bbb" := by
  decide

/-- C1 (amended): when the generation of the chain's leaf (its last
element) differs from the generation of `rev`, `WillResolveConflict` keeps
the pending context active, setting its target revision to the leaf and its
history to the mixed chain; the context is cleared only in the
equal-generation branch. -/
theorem willResolveConflict_diffGen_keepsContext (s : SharingIndexer)
    (rev : String) (chain : List String) (last : String) (br : BulkRevs)
    (hlast : chain.getLast? = some last)
    (hgen : RevGeneration last ≠ RevGeneration rev)
    (hbr : s.bulkRevs = some br) :
    WillResolveConflict s rev chain =
      some { s with bulkRevs := some ⟨last, revsChainToStruct (MixupChainToResolveConflict rev chain)⟩ } := by
  unfold WillResolveConflict
  rw [hlast, hbr]
  simp [hgen]

/-- C1 witness: the amended theorem at the claim's concrete scenario. -/
theorem willResolveConflict_diffGen_keepsContext_witness :
    WillResolveConflict sActive "3-aaa" chainFive =
      some { sActive with bulkRevs := some ⟨"5-bbb", revsChainToStruct (MixupChainToResolveConflict "3-aaa" chainFive)⟩ } :=
  willResolveConflict_diffGen_keepsContext sActive "3-aaa" chainFive "5-bbb"
    ⟨"3-aaa", ⟨3, ["aaa", "zzz", "yyy"]⟩⟩ (by decide) (by decide) (by decide)

/-- C2 counterexample: for the claim's equal-generation scenario (local
leaf `"4-aaa"`, incoming chain `["2-yyy", "3-zzz", "4-bbb"]`),
`WillResolveConflict` installs no merged chain at all: it clears the
pending context (`bulkRevs` becomes nil), refuting the claim that a fresh
`"5-<fresh>"`-headed merged chain is produced. -/
theorem willResolveConflict_c2_cex :
    WillResolveConflict sEqualGen "4-aaa" chainFour = some ⟨none, false⟩ := by decide

/-- C2 (amended): when the generation of the chain's leaf equals the
generation of `rev`, `WillResolveConflict` clears the pending forced-write
context (the subsequent write falls back to the normal path, which lets
the store generate the fresh revision); the resolver itself manufactures
no merged chain in this case. -/
theorem willResolveConflict_equalGen_clearsContext (s : SharingIndexer)
    (rev : String) (chain : List String) (last : String)
    (hlast : chain.getLast? = some last)
    (hgen : RevGeneration last = RevGeneration rev) :
    WillResolveConflict s rev chain = some { s with bulkRevs := none } := by
  unfold WillResolveConflict
  rw [hlast]
  simp [hgen]

/-- C2 witness: the amended theorem at the claim's concrete scenario. -/
theorem willResolveConflict_equalGen_clearsContext_witness :
    WillResolveConflict sEqualGen "4-aaa" chainFour = some { sEqualGen with bulkRevs := none } :=
  willResolveConflict_equalGen_clearsContext sEqualGen "4-aaa" chainFour "4-bbb"
    (by decide) (by decide)

/-- C3 counterexample: with no pending context active, `CreateFileDoc` does
not delegate to the underlying indexer — it performs nothing and returns
`ErrInternalServerError`, refuting "every operation behaves identically to
the underlying normal indexer, including CreateFileDoc". -/
theorem createFileDoc_idle_cex :
    CreateFileDoc sIdle = (sIdle, [], some Err.internalServerError) ∧
      (CreateFileDoc sIdle).2.1 ≠ [Effect.delegate "CreateFileDoc"] := by
  decide

/-- C3 (amended): with no pending context (`bulkRevs = none`), the named
create, the updates, the file delete and every read/usage operation are
pure delegation to the underlying indexer (`CreateNamedDirDoc` delegating
through `UpdateDirDoc`); but `CreateFileDoc`, `CreateDirDoc`, `InitIndex`,
`DeleteDirDoc`, `DeleteDirDocAndContent`, `BatchDelete`,
`CheckIndexIntegrity`, `CheckTreeIntegrity` and `BuildTree` still return
`ErrInternalServerError` without delegating, even in the idle state. -/
theorem idle_delegation_spec (s : SharingIndexer) (doc : FileDoc)
    (olddoc : Option FileDoc) (d : DirDoc) (oldd : Option DirDoc) (bogus : String)
    (h : s.bulkRevs = none) :
    CreateNamedFileDoc s doc bogus = some (s, doc, [Effect.delegate "CreateNamedFileDoc"], none) ∧
    UpdateFileDoc s olddoc doc = (s, doc, [Effect.delegate "UpdateFileDoc"], none) ∧
    UpdateDirDoc s oldd d = (s, d, [Effect.delegate "UpdateDirDoc"], none) ∧
    CreateNamedDirDoc s d = (s, d, [Effect.delegate "UpdateDirDoc"], none) ∧
    DeleteFileDoc s = (s, [Effect.delegate "DeleteFileDoc"], none) ∧
    DiskUsage s = (s, [Effect.delegate "DiskUsage"], none) ∧
    FilesUsage s = (s, [Effect.delegate "FilesUsage"], none) ∧
    VersionsUsage s = (s, [Effect.delegate "VersionsUsage"], none) ∧
    TrashUsage s = (s, [Effect.delegate "TrashUsage"], none) ∧
    DirByID s = (s, [Effect.delegate "DirByID"], none) ∧
    DirByPath s = (s, [Effect.delegate "DirByPath"], none) ∧
    FileByID s = (s, [Effect.delegate "FileByID"], none) ∧
    FileByPath s = (s, [Effect.delegate "FileByPath"], none) ∧
    FilePath s = (s, [Effect.delegate "FilePath"], none) ∧
    DirOrFileByID s = (s, [Effect.delegate "DirOrFileByID"], none) ∧
    DirOrFileByPath s = (s, [Effect.delegate "DirOrFileByPath"], none) ∧
    DirIterator s = (s, [Effect.delegate "DirIterator"], none) ∧
    DirBatch s = (s, [Effect.delegate "DirBatch"], none) ∧
    DirLength s = (s, [Effect.delegate "DirLength"], none) ∧
    DirChildExists s = (s, [Effect.delegate "DirChildExists"], none) ∧
    CreateVersion s = (s, [Effect.delegate "CreateVersion"], none) ∧
    DeleteVersion s = (s, [Effect.delegate "DeleteVersion"], none) ∧
    BatchDeleteVersions s = (s, [Effect.delegate "BatchDeleteVersions"], none) ∧
    CreateFileDoc s = (s, [], some Err.internalServerError) ∧
    CreateDirDoc s = (s, [], some Err.internalServerError) ∧
    InitIndex s = (s, [], some Err.internalServerError) ∧
    DeleteDirDoc s = (s, [], some Err.internalServerError) ∧
    DeleteDirDocAndContent s = (s, [], some Err.internalServerError) ∧
    BatchDelete s = (s, [], some Err.internalServerError) ∧
    CheckIndexIntegrity s = (s, [], some Err.internalServerError) ∧
    CheckTreeIntegrity s = (s, [], some Err.internalServerError) ∧
    BuildTree s = (s, [], some Err.internalServerError) := by
  refine ⟨?_, ?_, ?_, ?_, ?_, ?_, ?_, ?_, ?_, ?_, ?_, ?_, ?_, ?_, ?_, ?_, ?_,
    ?_, ?_, ?_, ?_, ?_, ?_, ?_, ?_, ?_, ?_, ?_, ?_, ?_, ?_, ?_⟩ <;>
    simp [CreateNamedFileDoc, UpdateFileDoc, UpdateDirDoc, CreateNamedDirDoc,
      DeleteFileDoc, DiskUsage, FilesUsage, VersionsUsage, TrashUsage, DirByID,
      DirByPath, FileByID, FileByPath, FilePath, DirOrFileByID, DirOrFileByPath,
      DirIterator, DirBatch, DirLength, DirChildExists, CreateVersion,
      DeleteVersion, BatchDeleteVersions, CreateFileDoc, CreateDirDoc, InitIndex,
      DeleteDirDoc, DeleteDirDocAndContent, BatchDelete, CheckIndexIntegrity,
      CheckTreeIntegrity, BuildTree, h]

/-- C3 witness: the amended theorem at a concrete idle state and docs. -/
theorem idle_delegation_spec_witness :
    CreateNamedFileDoc sIdle ⟨true, "", true⟩ "ffff" =
      some (sIdle, ⟨true, "", true⟩, [Effect.delegate "CreateNamedFileDoc"], none) :=
  (idle_delegation_spec sIdle ⟨true, "", true⟩ none ⟨""⟩ none "ffff" (by decide)).1

/-- C4 counterexample: with an active pending context, `DeleteFileDoc` is
NOT rejected: it delegates to the underlying indexer (so the delete is
performed) and returns no error, refuting the claim that the unconditional
file delete returns the internal-error result and leaves storage
unchanged. -/
theorem deleteFileDoc_active_cex :
    DeleteFileDoc sActive = (sActive, [Effect.delegate "DeleteFileDoc"], none) ∧
      (DeleteFileDoc sActive).2.2 ≠ some Err.internalServerError := by
  decide

/-- C4 (amended): with an active pending context, the bare creates, the
directory delete, the cascading directory-tree delete, the batch delete and
the integrity-check/tree-rebuild operations return `ErrInternalServerError`
and leave state and storage untouched — but the unconditional file delete
`DeleteFileDoc` is the exception: it delegates to the normal indexer (it is
used when uploading a new file fails). -/
theorem active_unsupported_ops_spec (s : SharingIndexer) (br : BulkRevs)
    (_h : s.bulkRevs = some br) :
    CreateFileDoc s = (s, [], some Err.internalServerError) ∧
    CreateDirDoc s = (s, [], some Err.internalServerError) ∧
    InitIndex s = (s, [], some Err.internalServerError) ∧
    DeleteDirDoc s = (s, [], some Err.internalServerError) ∧
    DeleteDirDocAndContent s = (s, [], some Err.internalServerError) ∧
    BatchDelete s = (s, [], some Err.internalServerError) ∧
    CheckIndexIntegrity s = (s, [], some Err.internalServerError) ∧
    CheckTreeIntegrity s = (s, [], some Err.internalServerError) ∧
    BuildTree s = (s, [], some Err.internalServerError) ∧
    DeleteFileDoc s = (s, [Effect.delegate "DeleteFileDoc"], none) := by
  exact ⟨rfl, rfl, rfl, rfl, rfl, rfl, rfl, rfl, rfl, rfl⟩

/-- C4 witness: the amended theorem at a concrete active-context state. -/
theorem active_unsupported_ops_spec_witness :
    DeleteDirDoc sActive = (sActive, [], some Err.internalServerError) :=
  (active_unsupported_ops_spec sActive ⟨"3-aaa", ⟨3, ["aaa", "zzz", "yyy"]⟩⟩
    (by decide)).2.2.2.1

/-- C5: `StashRevision` gives up — clearing the pending context and
returning `""` — exactly when there is no context or fewer ids than the
minimum (2 for a new file, 3 for an existing one); on success it removes
the head id, decrements `Start`, points the target revision
`"<Start-1>-<new head>"` at the new head, and returns the removed id. -/
theorem stashRevision_spec (s : SharingIndexer) (newFile : Bool) :
    ((s.bulkRevs = none ∨
        ∃ br, s.bulkRevs = some br ∧
          br.Revisions.IDs.length < (if newFile then 2 else 3)) →
      StashRevision s newFile = ({ s with bulkRevs := none }, "")) ∧
    (∀ br a rest, s.bulkRevs = some br → br.Revisions.IDs = a :: rest →
      (if newFile then 2 else 3) ≤ br.Revisions.IDs.length →
      StashRevision s newFile =
        ({ s with bulkRevs := some ⟨toString (br.Revisions.Start - 1) ++ "-" ++ rest.headD "", ⟨br.Revisions.Start - 1, rest⟩⟩ }, a)) := by
  constructor
  · intro hfb
    rcases hfb with hnone | ⟨br, hbr, hlen⟩
    · unfold StashRevision
      rw [hnone]
    · unfold StashRevision
      rw [hbr]
      simp [hlen]
  · intro br a rest hbr hids hlen
    rw [hids] at hlen
    unfold StashRevision
    rw [hbr]
    dsimp only
    rw [hids, if_neg (Nat.not_lt.mpr hlen)]
    simp

/-- C5 witness: a successful 2-id new-file stash at a concrete context. -/
theorem stashRevision_spec_witness :
    StashRevision ⟨some ⟨"2-bbb", ⟨2, ["bbb", "aaa"]⟩⟩, false⟩ true =
      (⟨some ⟨"1-aaa", ⟨1, ["aaa"]⟩⟩, false⟩, "bbb") :=
  (stashRevision_spec ⟨some ⟨"2-bbb", ⟨2, ["bbb", "aaa"]⟩⟩, false⟩ true).2
    ⟨"2-bbb", ⟨2, ["bbb", "aaa"]⟩⟩ "bbb" ["aaa"] rfl rfl (by decide)

/-- C6: for a context meeting the stash length requirement whose target
revision is `"<Start>-<IDs[0]>"`, `UnstashRevision` applied to the output
of a successful `StashRevision` restores the context exactly (same `Start`,
same id list, same target revision). -/
theorem unstash_stash_roundtrip (s : SharingIndexer) (br : BulkRevs) (newFile : Bool)
    (hbr : s.bulkRevs = some br)
    (hlen : (if newFile then 2 else 3) ≤ br.Revisions.IDs.length)
    (hrev : br.Rev = toString br.Revisions.Start ++ "-" ++ br.Revisions.IDs.headD "") :
    UnstashRevision (StashRevision s newFile).1 (StashRevision s newFile).2 = s := by
  obtain ⟨rev, start, ids⟩ := br
  cases ids with
  | nil => cases newFile <;> simp at hlen
  | cons a rest =>
    simp only [List.headD_cons] at hrev
    have hlen2 : ¬ ((a :: rest).length < (if newFile then 2 else 3)) :=
      Nat.not_lt.mpr hlen
    unfold StashRevision UnstashRevision
    rw [hbr]
    dsimp only
    rw [if_neg hlen2]
    simp only [List.tail_cons, List.headD_cons, Int.sub_add_cancel]
    rw [← hrev, ← hbr]

/-- C6 witness: the round trip at the new-file (2 ids) and existing-file
(3 ids) minimum-length contexts. -/
theorem unstash_stash_roundtrip_witness :
    UnstashRevision
        (StashRevision ⟨some ⟨"2-bbb", ⟨2, ["bbb", "aaa"]⟩⟩, false⟩ true).1
        (StashRevision ⟨some ⟨"2-bbb", ⟨2, ["bbb", "aaa"]⟩⟩, false⟩ true).2 =
      ⟨some ⟨"2-bbb", ⟨2, ["bbb", "aaa"]⟩⟩, false⟩ ∧
    UnstashRevision
        (StashRevision ⟨some ⟨"3-ccc", ⟨3, ["ccc", "bbb", "aaa"]⟩⟩, true⟩ false).1
        (StashRevision ⟨some ⟨"3-ccc", ⟨3, ["ccc", "bbb", "aaa"]⟩⟩, true⟩ false).2 =
      ⟨some ⟨"3-ccc", ⟨3, ["ccc", "bbb", "aaa"]⟩⟩, true⟩ :=
  ⟨unstash_stash_roundtrip ⟨some ⟨"2-bbb", ⟨2, ["bbb", "aaa"]⟩⟩, false⟩
      ⟨"2-bbb", ⟨2, ["bbb", "aaa"]⟩⟩ true rfl (by decide) (by decide),
    unstash_stash_roundtrip ⟨some ⟨"3-ccc", ⟨3, ["ccc", "bbb", "aaa"]⟩⟩, true⟩
      ⟨"3-ccc", ⟨3, ["ccc", "bbb", "aaa"]⟩⟩ false rfl (by decide) (by decide)⟩

/-- Context for the new-file upload scenario: chain `["2-bbb", "1-aaa"]`. -/
def sUpload : SharingIndexer := ⟨some ⟨"2-bbb", ⟨2, ["bbb", "aaa"]⟩⟩, false⟩

/-- The trashed placeholder document of the two-write upload. -/
def placeholderDoc : FileDoc := ⟨true, "", true⟩

/-- C7: in the new-file upload with context `Start = 2`,
`IDs = ["bbb", "aaa"]`, the trashed-placeholder create stashes `"bbb"` and
physically writes with revision `"1-aaa"` (restoring the context
afterwards), the finalizing update physically writes with revision
`"2-bbb"`, and the final stored revision is the chain's original head
`"2-bbb"` — one chain entry consumed per physical write. -/
theorem newFileUpload_twoWrites_scenario :
    CreateNamedFileDoc sUpload placeholderDoc "ffff" =
      some (sUpload, ⟨true, "1-aaa", true⟩,
        [Effect.bulkWrite "1-aaa" ⟨1, ["aaa"]⟩], none) ∧
    UpdateFileDoc sUpload (some ⟨true, "1-aaa", true⟩) ⟨false, "1-aaa", true⟩ =
      (sUpload, ⟨false, "2-bbb", true⟩,
        [Effect.bulkWrite "2-bbb" ⟨2, ["bbb", "aaa"]⟩, Effect.rtEvent "update" true],
        none) := by
  decide

/-- C8: with an active context, `IncrementRevision` increments `Start` by
one, prepends the freshly generated id, makes `"<Start+1>-<fresh>"` the new
target revision, and keeps all previous ids unchanged in order. -/
theorem incrementRevision_spec (s : SharingIndexer) (br : BulkRevs) (g : String)
    (h : s.bulkRevs = some br) :
    IncrementRevision s g =
      { s with bulkRevs := some ⟨toString (br.Revisions.Start + 1) ++ "-" ++ g, ⟨br.Revisions.Start + 1, g :: br.Revisions.IDs⟩⟩ } := by
  unfold IncrementRevision
  rw [h]

/-- C8 witness: the theorem at a concrete active context and fresh id. -/
theorem incrementRevision_spec_witness :
    IncrementRevision sActive "0123" =
      ⟨some ⟨"4-0123", ⟨4, ["0123", "aaa", "zzz", "yyy"]⟩⟩, false⟩ := by
  rw [incrementRevision_spec sActive ⟨"3-aaa", ⟨3, ["aaa", "zzz", "yyy"]⟩⟩ "0123" rfl]
  decide

/-- C9: `WillResolveConflict` is not total: it returns no state (models a
panic) on an empty chain, and also when the two leaf generations differ
while no pending context is active (the nil-pointer write on the mixup
branch); in every other case — equal generations, or an active context —
it produces a state. -/
theorem willResolveConflict_partiality (s : SharingIndexer) (rev last : String)
    (chain : List String) (hlast : chain.getLast? = some last) :
    WillResolveConflict s rev [] = none ∧
    (RevGeneration last ≠ RevGeneration rev → s.bulkRevs = none →
      WillResolveConflict s rev chain = none) ∧
    (RevGeneration last = RevGeneration rev ∨ s.bulkRevs ≠ none →
      (WillResolveConflict s rev chain).isSome = true) := by
  refine ⟨rfl, ?_, ?_⟩
  · intro hgen hnone
    unfold WillResolveConflict
    rw [hlast, hnone]
    simp [hgen]
  · intro hcase
    unfold WillResolveConflict
    rw [hlast]
    rcases hcase with hgen | hsome
    · simp [hgen]
    · cases hb : s.bulkRevs with
      | none => exact absurd hb hsome
      | some br => by_cases hgen : RevGeneration last = RevGeneration rev <;> simp [hgen]

/-- C9 witness: the empty chain and the nil-context mixup branch at
concrete inputs. -/
theorem willResolveConflict_partiality_witness :
    WillResolveConflict sIdle "3-aaa" [] = none ∧
      WillResolveConflict sIdle "3-aaa" chainFive = none := by
  have h := willResolveConflict_partiality sIdle "3-aaa" "5-bbb" chainFive (by decide)
  exact ⟨h.1, h.2.1 (by decide) rfl⟩

/-- C10: with no pending context, the cursor operations
`IncrementRevision`, `UnstashRevision` and `CreateBogusPrevRev` return the
state unchanged: no context is created, no storage effect happens. -/
theorem idle_cursor_noops (s : SharingIndexer) (g st b : String)
    (h : s.bulkRevs = none) :
    IncrementRevision s g = s ∧ UnstashRevision s st = s ∧ CreateBogusPrevRev s b = s := by
  unfold IncrementRevision UnstashRevision CreateBogusPrevRev
  rw [h]
  exact ⟨rfl, rfl, rfl⟩

/-- C10 witness: the three no-ops at the concrete idle state. -/
theorem idle_cursor_noops_witness :
    IncrementRevision sIdle "aaaa" = sIdle ∧ UnstashRevision sIdle "bbbb" = sIdle ∧
      CreateBogusPrevRev sIdle "cccc" = sIdle :=
  idle_cursor_noops sIdle "aaaa" "bbbb" "cccc" rfl
